import Mathlib

/-!
Verification development for the session-next repository: shallow embeddings
of the transcription session engine's pure control logic, taken from

* src/app/lib/ui/guided-session/useTranscription.ts (the React-hook variant),
* src/app/lib/ui/guided-session/guided-session.tsx (the component variant),
* src/unnamed/part_001 (the WebSocket TranscriptionService variant),
* src/app/lib/actions/transcription/transcription-actions.ts (the audio PCM
  conversion).

Stateful callbacks are modelled as explicit state-passing functions; external
effects (credential fetch, microphone, HTTP exchange, JSON parsing) are
modelled as explicit oracle parameters (Except / Bool), and side-effect
notifications to the UI layer as emitted event lists.
-/

namespace UseTranscription

/-- Session status of the hook variant (`useTranscription.ts` line 6). -/
inductive HookStatus where
  | idle
  | connecting
  | transcribing
  | error
  | disconnected
deriving DecidableEq, Repr

/-- A transcription event as the hook sees it (`useTranscription.ts` lines
8-15): a type discriminator plus optional `delta` and `transcript` fields. -/
structure TEvent where
  type : String
  delta : Option String
  transcript : Option String
deriving DecidableEq, Repr

/-- JavaScript truthiness of an optional string field:
truthy iff present and not the empty string. -/
def strTruthy : Option String → Bool
  | none => false
  | some s => s ≠ ""

/-- State owned by the hook: status, accumulated finalized transcript,
in-progress partial transcript, last error, and the three connection refs
(`useTranscription.ts` lines 38-45).  Object identity of created resources is
modelled by numeric ids drawn from `nextId`. -/
structure HookState where
  status : HookStatus
  transcript : String
  partialTranscript : String
  errorMsg : Option String
  mediaStream : Option Nat
  dataChannel : Option Nat
  peerConnection : Option Nat
  nextId : Nat
deriving DecidableEq, Repr

/-- A `(text, isFinal)` notification delivered to `onTranscriptionUpdate`. -/
structure HookEmit where
  text : String
  isFinal : Bool
deriving DecidableEq, Repr

def deltaType : String := "conversation.item.input_audio_transcription.delta"

def completedType : String := "conversation.item.input_audio_transcription.completed"

/-- `handleTranscriptionEvent` of `useTranscription.ts` lines 47-72.
The delta branch fires when the type matches and `event.delta` is truthy and
appends the delta to the partial transcript; the completed branch fires when
the type matches and `event.transcript` is truthy, appends the transcript to
the accumulated transcript (space-separated when nonempty) and clears the
partial transcript; anything else is logged and ignored. -/
def handleTranscriptionEvent (e : TEvent) (s : HookState) :
    HookState × List HookEmit :=
  if e.type = deltaType ∧ strTruthy e.delta then
    let updated := s.partialTranscript ++ (e.delta.getD "")
    ({ s with partialTranscript := updated }, [⟨updated, false⟩])
  else if e.type = completedType ∧ strTruthy e.transcript then
    let t := e.transcript.getD ""
    let newTranscript := if s.transcript ≠ "" then s.transcript ++ " " ++ t else t
    ({ s with transcript := newTranscript, partialTranscript := "" },
      [⟨newTranscript, true⟩])
  else
    (s, [])

/-- A delta event carrying text `d`. -/
def deltaEvent (d : String) : TEvent := ⟨deltaType, some d, none⟩

/-- A completed event carrying transcript `t`. -/
def completedEvent (t : String) : TEvent := ⟨completedType, none, some t⟩

/-- Process a list of events in arrival order, discarding notifications. -/
def processEvents (es : List TEvent) (s : HookState) : HookState :=
  es.foldl (fun st e => (handleTranscriptionEvent e st).1) s

/-- An arbitrary concrete initial state for closed evaluations. -/
def initialHookState : HookState :=
  ⟨.idle, "", "", none, none, none, none, 0⟩

/-- Whitespace characters, used to state the spec's `text.trim()`. -/
def isWsChar (c : Char) : Bool := c = ' ' || c = '\t' || c = '\n' || c = '\r'

/-- Modelled from the spec: the `text.trim()` operation the spec's claim
refers to (strip leading and trailing whitespace).  The source never calls
`trim` on transcripts; this definition exists only to compare the claim's
wording with what the code does. -/
def specTrim (s : String) : String :=
  String.mk (((s.data.dropWhile isWsChar).reverse.dropWhile isWsChar).reverse)

/-- `stopTranscription` of `useTranscription.ts` lines 339-369: stop every
media track and drop the stream ref, close and drop the data channel, close
and drop the peer connection, then set status to idle.  It touches neither
the transcripts nor the last error. -/
def stopTranscription (s : HookState) : HookState :=
  { s with mediaStream := none, dataChannel := none, peerConnection := none,
           status := .idle }

/-- Oracle for the external effects of one `setupTranscription` run:
whether the ephemeral-key fetch yields a usable key, whether microphone
access is granted, and whether the SDP exchange returns a success status. -/
structure Env where
  keyOk : Bool
  micOk : Bool
  apiOk : Bool
deriving DecidableEq, Repr

/-- `setupTranscription` of `useTranscription.ts` lines 74-305.  It sets
status to connecting and clears the error, then fetches the key, requests
the microphone, creates the peer connection, adds tracks, creates the data
channel and performs the SDP exchange.  Any failure is caught: the error is
recorded, status is set to error, and `stopTranscription` runs (leaving
status idle); the function reports success as a boolean instead of
throwing. -/
def setupTranscription (env : Env) (s : HookState) : Bool × HookState :=
  let s1 := { s with status := HookStatus.connecting, errorMsg := none }
  if env.keyOk = false then
    (false, stopTranscription
      { s1 with errorMsg := some "Failed to get ephemeral key",
                status := HookStatus.error })
  else if env.micOk = false then
    (false, stopTranscription
      { s1 with errorMsg := some "microphone access denied",
                status := HookStatus.error })
  else
    let s2 := { s1 with mediaStream := some s1.nextId, nextId := s1.nextId + 1 }
    let s3 := { s2 with peerConnection := some s2.nextId, nextId := s2.nextId + 1 }
    let s4 := { s3 with dataChannel := some s3.nextId, nextId := s3.nextId + 1 }
    if env.apiOk = false then
      (false, stopTranscription
        { s4 with errorMsg := some "Failed to connect to OpenAI Realtime API",
                  status := HookStatus.error })
    else
      (true, s4)

/-- The retry loop body of `startTranscription` (`useTranscription.ts` lines
307-337): run `setupTranscription`; stop on success; otherwise decrement the
retry budget, and when it is exhausted record the error, set status to error
and run `stopTranscription`. -/
def startLoop (env : Env) : Nat → HookState → HookState
  | 0, s => s
  | r + 1, s =>
      let res := setupTranscription env s
      if res.1 then res.2
      else if r = 0 then
        stopTranscription
          { res.2 with errorMsg := some "Setup failed", status := HookStatus.error }
      else startLoop env r res.2

/-- `startTranscription` of `useTranscription.ts` lines 307-337: three
attempts of `setupTranscription`, with no check of the current status
before starting. -/
def startTranscription (env : Env) (s : HookState) : HookState :=
  startLoop env 3 s

/-- `dataChannel.onmessage` of `useTranscription.ts` lines 155-163: the
payload is parsed as JSON inside a try block; a parse failure is caught and
only logged, so the handler never throws and never touches the state. -/
def dataChannelOnMessage (parsed : Except String TEvent) (s : HookState) :
    Except String (HookState × List HookEmit) :=
  match parsed with
  | .ok e => .ok (handleTranscriptionEvent e s)
  | .error _ => .ok (s, [])

/-- A concrete connected-looking state (status transcribing, refs held). -/
def connectedHookState : HookState :=
  ⟨.transcribing, "", "", none, some 0, some 2, some 1, 3⟩

/-- The all-success oracle. -/
def allOkEnv : Env := ⟨true, true, true⟩

end UseTranscription

namespace TranscriptionSvc

/-- Status of the WebSocket `TranscriptionService` (`part_001` line 10). -/
inductive Status where
  | idle
  | connecting
  | active
  | error
  | closed
deriving DecidableEq, Repr

/-- State of the service: the socket ref and the status (`part_001` lines
13-15), plus a counter for fresh socket identities. -/
structure SvcState where
  ws : Option Nat
  status : Status
  nextId : Nat
deriving DecidableEq, Repr

/-- Callback invocations delivered to the `TranscriptionEvents` listener. -/
inductive Emit where
  | statusChange (st : Status)
  | errorCb (msg : String)
  | updateCb (txt : Option String)
  | completedCb (txt : Option String)
deriving DecidableEq, Repr

/-- `setStatus` of `part_001` lines 128-131: mutate the status field, then
notify the listener. -/
def setStatus (st : Status) (s : SvcState) : SvcState × List Emit :=
  ({ s with status := st }, [.statusChange st])

/-- `start` of `part_001` lines 21-51: return immediately when the status is
already active or connecting; otherwise set status connecting, fetch the
client secret, and either open a socket or (on a caught failure) set status
error and notify `onError`. -/
def start (secret : Except String String) (s : SvcState) : SvcState × List Emit :=
  if s.status = Status.active ∨ s.status = Status.connecting then (s, [])
  else
    let r1 := setStatus Status.connecting s
    match secret with
    | .ok _ =>
        ({ r1.1 with ws := some r1.1.nextId, nextId := r1.1.nextId + 1 }, r1.2)
    | .error msg =>
        let r2 := setStatus Status.error r1.1
        (r2.1, r1.2 ++ r2.2 ++ [.errorCb ("Error: " ++ msg)])

/-- `stop` of `part_001` lines 53-60: only when a socket ref exists, close
it, drop the ref and set status idle; otherwise do nothing at all. -/
def stop (s : SvcState) : SvcState × List Emit :=
  match s.ws with
  | some _ => setStatus Status.idle { s with ws := none }
  | none => (s, [])

/-- An incoming wire message as the service reads it (`part_001` lines
78-110): a type discriminator plus the optional fields it projects. -/
structure Msg where
  type : String
  errMessage : Option String
  delta : Option String
  transcript : Option String
deriving DecidableEq, Repr

/-- `handleMessage` of `part_001` lines 78-110: JSON parsing happens inside
a try block whose catch only logs, so a malformed payload changes nothing
and throws nothing.  A parsed message dispatches to callbacks by type and
never touches the status or the socket ref. -/
def handleMessage (parsed : Except String Msg) (s : SvcState) :
    SvcState × List Emit :=
  match parsed with
  | .error _ => (s, [])
  | .ok m =>
      if m.type = "error" then
        (s, [.errorCb ("API Error: " ++ (m.errMessage.getD "Unknown error"))])
      else if m.type = UseTranscription.deltaType then
        (s, [.updateCb m.delta])
      else if m.type = UseTranscription.completedType then
        (s, [.completedCb m.transcript, .updateCb (some " ")])
      else
        (s, [])

/-- `handleClose` of `part_001` lines 112-119: set status to closed first,
then test whether the status is still active or connecting (it cannot be:
it was just set to closed), emitting the connection-closed error only in
that case, and finally drop the socket ref. -/
def handleClose (reason : Option String) (s : SvcState) : SvcState × List Emit :=
  let r1 := setStatus Status.closed s
  let errEmits :=
    if r1.1.status = Status.active ∨ r1.1.status = Status.connecting then
      [Emit.errorCb ("Connection closed: " ++ (reason.getD "Unknown reason"))]
    else []
  ({ r1.1 with ws := none }, r1.2 ++ errEmits)

/-- A concrete state with a live socket and active status. -/
def activeSvcState : SvcState := ⟨some 5, .active, 6⟩

end TranscriptionSvc

namespace GuidedSession

/-- A data channel or peer connection reference: identity plus whether
`close()` has been called on it. -/
structure ChanRef where
  id : Nat
  isOpen : Bool
deriving DecidableEq, Repr

/-- A media stream reference: whether its first audio track is enabled, and
whether its tracks are still live (not stopped). -/
structure MediaRef where
  enabled : Bool
  live : Bool
deriving DecidableEq, Repr

/-- State of the `GuidedSession` component (`guided-session.tsx` lines
62-80): recovery attempt counter, heartbeat interval, connection refs and
the UI state flags. -/
structure GSState where
  recoveryAttempts : Nat
  heartbeatActive : Bool
  dataChannel : Option ChanRef
  peerConnection : Option ChanRef
  mediaStream : Option MediaRef
  isConnected : Bool
  isListening : Bool
  errorMsg : Option String
deriving DecidableEq, Repr

/-- `maxRecoveryAttempts` of `guided-session.tsx` line 71. -/
def maxRecoveryAttempts : Nat := 3

/-- Calling `close()` on a held ref (the ref itself is not dropped). -/
def closeRef : Option ChanRef → Option ChanRef :=
  Option.map (fun c => { c with isOpen := false })

/-- Calling `track.stop()` on every track of a held stream. -/
def stopTracks : Option MediaRef → Option MediaRef :=
  Option.map (fun m => { m with live := false })

def recoveryFailMsg : String :=
  "Connection failed after multiple recovery attempts. Please try again later."

/-- `cleanupConnection` of `guided-session.tsx` lines 640-674: clear the
heartbeat interval, close the data channel and the peer connection, stop the
media tracks, reset the recovery attempt counter to zero, and clear the
connected/listening flags.  The last error is left as it is. -/
def cleanupConnection (s : GSState) : GSState :=
  { s with heartbeatActive := false,
           dataChannel := closeRef s.dataChannel,
           peerConnection := closeRef s.peerConnection,
           mediaStream := stopTracks s.mediaStream,
           recoveryAttempts := 0,
           isConnected := false,
           isListening := false }

/-- What the recovery routine decides to do next. -/
inductive GSAction where
  | reconnect
  | gaveUp
  | scheduleDisconnectTimer
deriving DecidableEq, Repr

/-- `attemptConnectionRecovery` of `guided-session.tsx` lines 114-152: at or
above the cap, surface the terminal error and run `cleanupConnection` with
no reconnect; below the cap, increment the counter, close the current
channel and peer connection, refresh the media stream only when its first
track is disabled, and re-run the connection initialization. -/
def attemptConnectionRecovery (s : GSState) : GSState × GSAction :=
  if maxRecoveryAttempts ≤ s.recoveryAttempts then
    (cleanupConnection { s with errorMsg := some recoveryFailMsg }, .gaveUp)
  else
    let s1 := { s with recoveryAttempts := s.recoveryAttempts + 1 }
    let s2 := { s1 with dataChannel := closeRef s1.dataChannel,
                        peerConnection := closeRef s1.peerConnection }
    let s3 :=
      match s2.mediaStream with
      | some m => if m.enabled = false then { s2 with mediaStream := none } else s2
      | none => s2
    (s3, .reconnect)

/-- The transport connection states the handler discriminates on. -/
inductive PCConnState where
  | failed
  | disconnected
  | connected
  | other
deriving DecidableEq, Repr

/-- `peerConnection.onconnectionstatechange` of `guided-session.tsx` lines
261-285: on failed while listening, run the recovery routine; on
disconnected, only schedule a delayed recovery check; on connected, reset
the recovery attempt counter to zero; otherwise do nothing. -/
def onConnectionStateChange (st : PCConnState) (s : GSState) :
    GSState × List GSAction :=
  match st with
  | .failed =>
      if s.isListening then
        let r := attemptConnectionRecovery s
        (r.1, [r.2])
      else (s, [])
  | .disconnected => (s, [.scheduleDisconnectTimer])
  | .connected => ({ s with recoveryAttempts := 0 }, [])
  | .other => (s, [])

/-- A NAT-traversal server descriptor (`{urls, username?, credential?}`). -/
structure IceServer where
  urls : String
  username : Option String
  credential : Option String
deriving DecidableEq, Repr

/-- The hardcoded fallback list of `guided-session.tsx` lines 183-204. -/
def fallbackIceServers : List IceServer :=
  [ ⟨"stun:stun.l.google.com:19302", none, none⟩,
    ⟨"stun:stun1.l.google.com:19302", none, none⟩,
    ⟨"stun:stun2.l.google.com:19302", none, none⟩,
    ⟨"turn:openrelay.metered.ca:443?transport=tcp",
      some "openrelayproject", some "openrelayproject"⟩,
    ⟨"turns:openrelay.metered.ca:443?transport=tcp",
      some "openrelayproject", some "openrelayproject"⟩,
    ⟨"turn:openrelay.metered.ca:80",
      some "openrelayproject", some "openrelayproject"⟩ ]

/-- The observable pieces of the `/api/turn-credentials` fetch: the HTTP
success flag and the parsed `iceServers` field (an error when the body is
not JSON or lacks the field). -/
structure TurnResponse where
  ok : Bool
  jsonIceServers : Except String (List IceServer)

/-- `getIceServers` of `guided-session.tsx` lines 155-213: the whole fetch
and parse runs in a try block; a network failure, a non-success status, or
an unusable body all land in the catch, which returns the hardcoded
fallback list as an ordinary value. -/
def getIceServers (fetchResult : Except String TurnResponse) : List IceServer :=
  match fetchResult with
  | .error _ => fallbackIceServers
  | .ok r =>
      if r.ok = false then fallbackIceServers
      else
        match r.jsonIceServers with
        | .ok servers => servers
        | .error _ => fallbackIceServers

/-- A concrete state in the middle of recovery (two attempts used). -/
def midRecoveryState : GSState :=
  ⟨2, true, some ⟨7, true⟩, some ⟨8, true⟩, some ⟨true, true⟩, true, true, none⟩

/-- A concrete state with the retry budget exhausted. -/
def exhaustedState : GSState :=
  ⟨3, true, some ⟨7, true⟩, some ⟨8, true⟩, some ⟨true, true⟩, true, true, none⟩

end GuidedSession

namespace AudioCapture

/-- Truncation toward zero: what ECMAScript number-to-integer conversion
does to a finite value before wrapping. -/
def jsTruncate (q : ℚ) : Int := if 0 ≤ q then ⌊q⌋ else ⌈q⌉

/-- ECMAScript ToInt16, as applied by `DataView.setInt16`: truncate toward
zero, reduce modulo 2^16, and reinterpret in the signed 16-bit range. -/
def toInt16 (q : ℚ) : Int :=
  let m := (jsTruncate q) % 65536
  if 32768 ≤ m then m - 65536 else m

/-- `Math.max(-1, Math.min(1, floatArray[i]))` of
`transcription-actions.ts` line 160. -/
def clampSample (x : ℚ) : ℚ := max (-1) (min 1 x)

/-- `s < 0 ? s * 0x8000 : s * 0x7fff` of `transcription-actions.ts`
line 161, applied to the clamped sample. -/
def scaleSample (x : ℚ) : ℚ :=
  let s := clampSample x
  if s < 0 then s * 32768 else s * 32767

/-- The signed 16-bit value stored for one input sample. -/
def pcm16Value (x : ℚ) : Int := toInt16 (scaleSample x)

/-- The little-endian byte pair written by `view.setInt16(i * 2, v, true)`:
low byte first. -/
def int16LEBytes (q : ℚ) : List Nat :=
  let u := ((jsTruncate q) % 65536).toNat
  [u % 256, u / 256]

/-- `convertToPCM16` of `transcription-actions.ts` lines 156-164: clamp,
scale and store each sample as a little-endian signed 16-bit integer,
two bytes per sample. -/
def convertToPCM16 : List ℚ → List Nat
  | [] => []
  | x :: xs => int16LEBytes (scaleSample x) ++ convertToPCM16 xs

end AudioCapture

namespace UseTranscription

lemma handle_delta_partial (d : String) (s : HookState) :
    ((handleTranscriptionEvent (deltaEvent d) s).1).partialTranscript =
      s.partialTranscript ++ d := by
  by_cases hd : d = ""
  · subst hd
    simp [handleTranscriptionEvent, deltaEvent, strTruthy]
  · simp [handleTranscriptionEvent, deltaEvent, strTruthy, hd]

lemma foldl_append_init (l : List String) (a b : String) :
    List.foldl (· ++ ·) (a ++ b) l = a ++ List.foldl (· ++ ·) b l := by
  induction l generalizing b with
  | nil => rfl
  | cons x xs ih =>
      simp only [List.foldl_cons, String.append_assoc]
      exact ih (b ++ x)

lemma join_cons (d : String) (rest : List String) :
    String.join (d :: rest) = d ++ String.join rest := by
  show List.foldl (· ++ ·) ("" ++ d) rest = d ++ List.foldl (· ++ ·) "" rest
  have h := foldl_append_init rest d ""
  simpa using h

lemma processEvents_deltas (ds : List String) (s : HookState) :
    (processEvents (ds.map deltaEvent) s).partialTranscript =
      s.partialTranscript ++ String.join ds := by
  induction ds generalizing s with
  | nil => simp [processEvents, String.join]
  | cons d rest ih =>
      simp only [List.map_cons, processEvents, List.foldl_cons] at ih ⊢
      rw [ih, handle_delta_partial, join_cons, String.append_assoc]

lemma handle_completed_nonempty (t : String) (s : HookState) (ht : t ≠ "") :
    handleTranscriptionEvent (completedEvent t) s =
      ({ s with
          transcript := if s.transcript ≠ "" then s.transcript ++ " " ++ t else t,
          partialTranscript := "" },
        [⟨if s.transcript ≠ "" then s.transcript ++ " " ++ t else t, true⟩]) := by
  simp [handleTranscriptionEvent, completedEvent, strTruthy, ht, deltaType,
    completedType]

lemma handle_completed_empty (s : HookState) :
    handleTranscriptionEvent (completedEvent "") s = (s, []) := by
  simp [handleTranscriptionEvent, completedEvent, strTruthy]

/-- C1 counterexample: starting from the empty buffer, the delta `"hi"`
accumulates, but a subsequent `Completed` event whose text is the empty
string falls into the unhandled-event branch and leaves the in-progress
buffer equal to `"hi"`, not `""` — refuting the claim that processing the
next `Completed` event always clears the in-progress buffer. -/
theorem c1_empty_completed_keeps_partial :
    (processEvents [deltaEvent "hi"] initialHookState).partialTranscript = "hi" ∧
    ((handleTranscriptionEvent (completedEvent "")
        (processEvents [deltaEvent "hi"] initialHookState)).1).partialTranscript
      = "hi" := by
  exact ⟨rfl, rfl⟩

/-- C1 (amended): for every sequence of `Delta` events with texts `d1…dn`
processed from an empty in-progress buffer, the buffer equals the ordered
concatenation `d1+…+dn`; processing a next `Completed` event clears the
in-progress buffer to the empty string provided its text is non-empty, while
a `Completed` event carrying the empty string leaves the state unchanged. -/
theorem delta_accumulation_and_completed_clear
    (ds : List String) (s : HookState) (t : String)
    (hp : s.partialTranscript = "") (ht : t ≠ "") :
    (processEvents (ds.map deltaEvent) s).partialTranscript = String.join ds ∧
    (∀ s2 : HookState,
      ((handleTranscriptionEvent (completedEvent t) s2).1).partialTranscript = "") ∧
    (∀ s2 : HookState, handleTranscriptionEvent (completedEvent "") s2 = (s2, [])) := by
  refine ⟨?_, ?_, fun s2 => handle_completed_empty s2⟩
  · rw [processEvents_deltas, hp]
    simp
  · intro s2
    rw [handle_completed_nonempty t s2 ht]

/-- Witness for C1's amended theorem at the spec's own scenario:
deltas `"Hel"`, `"lo "`, `"world"` then `Completed "Hello world"`. -/
theorem delta_accumulation_witness :
    (processEvents (["Hel", "lo ", "world"].map deltaEvent)
        initialHookState).partialTranscript = String.join ["Hel", "lo ", "world"] ∧
    ((handleTranscriptionEvent (completedEvent "Hello world")
        initialHookState).1).partialTranscript = "" :=
  have h := delta_accumulation_and_completed_clear ["Hel", "lo ", "world"]
    initialHookState "Hello world" rfl (by decide)
  ⟨h.1, h.2.1 initialHookState⟩

/-- C2 counterexample: the code never trims.  A whitespace-only
`Completed " "` does produce a finalized notification (the claim says it
must produce none, since `" ".trim()` is empty), and `Completed " hi "`
finalizes the verbatim text `" hi "`, which differs from its trimmed form
`"hi"`. -/
theorem c2_no_trim_counterexample :
    (" ").data.all isWsChar = true ∧
    (handleTranscriptionEvent (completedEvent " ") initialHookState).2
      = [⟨" ", true⟩] ∧
    ((handleTranscriptionEvent (completedEvent " hi ") initialHookState).1).transcript
      = " hi " ∧
    specTrim " hi " = "hi" ∧ (" hi " : String) ≠ "hi" := by
  refine ⟨by decide, by decide, by decide, by decide, by decide⟩

/-- C2 (amended): processing `Completed(t)` appends exactly one finalized
utterance equal to `t` verbatim (no trimming) to the accumulated transcript
(space-separated when non-empty) and notifies exactly once with
`isFinal = true`, exactly when `t` is non-empty — so whitespace-only
completions do produce a finalized utterance; only `Completed("")` produces
none and leaves the state unchanged. -/
theorem completed_appends_verbatim (t : String) (s : HookState) (ht : t ≠ "") :
    ((handleTranscriptionEvent (completedEvent t) s).1).transcript =
      (if s.transcript ≠ "" then s.transcript ++ " " ++ t else t) ∧
    (handleTranscriptionEvent (completedEvent t) s).2 =
      [⟨(if s.transcript ≠ "" then s.transcript ++ " " ++ t else t), true⟩] ∧
    (∀ s2 : HookState, handleTranscriptionEvent (completedEvent "") s2 = (s2, [])) := by
  rw [handle_completed_nonempty t s ht]
  exact ⟨rfl, rfl, fun s2 => handle_completed_empty s2⟩

/-- Witness for C2's amended theorem at `t = "Hello world"` from the
initial state. -/
theorem completed_appends_verbatim_witness :
    ((handleTranscriptionEvent (completedEvent "Hello world")
        initialHookState).1).transcript = "Hello world" ∧
    (handleTranscriptionEvent (completedEvent "Hello world") initialHookState).2 =
      [⟨"Hello world", true⟩] :=
  have h := completed_appends_verbatim "Hello world" initialHookState (by decide)
  ⟨by simpa using h.1, by simpa using h.2.1⟩

end UseTranscription

namespace GuidedSession

lemma cleanup_recoveryAttempts (s : GSState) :
    (cleanupConnection s).recoveryAttempts = 0 := rfl

lemma closeRef_closed (o : Option ChanRef) (c : ChanRef) (h : closeRef o = some c) :
    c.isOpen = false := by
  cases o with
  | none => simp [closeRef] at h
  | some c0 =>
      simp [closeRef] at h
      rw [← h]

lemma stopTracks_dead (o : Option MediaRef) (m : MediaRef) (h : stopTracks o = some m) :
    m.live = false := by
  cases o with
  | none => simp [stopTracks] at h
  | some m0 =>
      simp [stopTracks] at h
      rw [← h]

lemma cleanup_releases (s : GSState) :
    (cleanupConnection s).heartbeatActive = false ∧
    (∀ c, (cleanupConnection s).dataChannel = some c → c.isOpen = false) ∧
    (∀ c, (cleanupConnection s).peerConnection = some c → c.isOpen = false) ∧
    (∀ m, (cleanupConnection s).mediaStream = some m → m.live = false) :=
  ⟨rfl, fun c hc => closeRef_closed s.dataChannel c hc,
    fun c hc => closeRef_closed s.peerConnection c hc,
    fun m hm => stopTracks_dead s.mediaStream m hm⟩

lemma attemptRecovery_at_cap (s : GSState)
    (h : maxRecoveryAttempts ≤ s.recoveryAttempts) :
    attemptConnectionRecovery s =
      (cleanupConnection { s with errorMsg := some recoveryFailMsg },
        GSAction.gaveUp) := by
  unfold attemptConnectionRecovery
  rw [if_pos h]

lemma attemptRecovery_below_cap (s : GSState)
    (h : s.recoveryAttempts < maxRecoveryAttempts) :
    (attemptConnectionRecovery s).1.recoveryAttempts = s.recoveryAttempts + 1 ∧
    (attemptConnectionRecovery s).2 = GSAction.reconnect := by
  have h2 : ¬ maxRecoveryAttempts ≤ s.recoveryAttempts := by omega
  unfold attemptConnectionRecovery
  rw [if_neg h2]
  cases hm : s.mediaStream with
  | none => simp [hm]
  | some m =>
      by_cases he : m.enabled = false
      · simp [hm, he]
      · simp [hm, he]

/-- C3: the recovery attempt counter never exceeds `maxRecoveryAttempts`
(3): on every invocation of `attemptConnectionRecovery`, either the counter
is below 3, in which case it is incremented by one and a reconnect is
attempted, or the counter is at (or beyond) the cap, in which case no
reconnect is attempted, the terminal error is surfaced, and the heartbeat
timer, data channel, peer connection and media tracks are all
cleared/closed/stopped. -/
theorem recovery_attempts_bounded (s : GSState) :
    (attemptConnectionRecovery s).1.recoveryAttempts ≤ maxRecoveryAttempts ∧
    (s.recoveryAttempts < maxRecoveryAttempts →
      (attemptConnectionRecovery s).1.recoveryAttempts = s.recoveryAttempts + 1 ∧
      (attemptConnectionRecovery s).2 = GSAction.reconnect) ∧
    (maxRecoveryAttempts ≤ s.recoveryAttempts →
      (attemptConnectionRecovery s).2 = GSAction.gaveUp ∧
      (attemptConnectionRecovery s).1.errorMsg = some recoveryFailMsg ∧
      (attemptConnectionRecovery s).1.heartbeatActive = false ∧
      (∀ c, (attemptConnectionRecovery s).1.dataChannel = some c → c.isOpen = false) ∧
      (∀ c, (attemptConnectionRecovery s).1.peerConnection = some c → c.isOpen = false) ∧
      (∀ m, (attemptConnectionRecovery s).1.mediaStream = some m → m.live = false)) := by
  by_cases h : maxRecoveryAttempts ≤ s.recoveryAttempts
  · rw [attemptRecovery_at_cap s h]
    have hr := cleanup_releases { s with errorMsg := some recoveryFailMsg }
    exact ⟨by simp [cleanup_recoveryAttempts, maxRecoveryAttempts],
      fun hlt => absurd h (by omega),
      fun _ => ⟨rfl, rfl, hr.1, hr.2.1, hr.2.2.1, hr.2.2.2⟩⟩
  · have hlt : s.recoveryAttempts < maxRecoveryAttempts := by omega
    have hb := attemptRecovery_below_cap s hlt
    refine ⟨?_, fun _ => hb, fun hge => absurd hge h⟩
    rw [hb.1]
    simp only [maxRecoveryAttempts] at hlt ⊢
    omega

/-- Witness for C3 at a concrete state with the retry budget exhausted. -/
theorem recovery_attempts_bounded_witness :
    (attemptConnectionRecovery exhaustedState).1.recoveryAttempts ≤ maxRecoveryAttempts ∧
    (attemptConnectionRecovery exhaustedState).2 = GSAction.gaveUp ∧
    (attemptConnectionRecovery exhaustedState).1.errorMsg = some recoveryFailMsg ∧
    (attemptConnectionRecovery exhaustedState).1.heartbeatActive = false :=
  have h := recovery_attempts_bounded exhaustedState
  ⟨h.1, (h.2.2 (by decide)).1, (h.2.2 (by decide)).2.1,
    (h.2.2 (by decide)).2.2.1⟩

/-- C4 counterexample: `cleanupConnection` — plain teardown, not a confirmed
connected transition — resets the recovery attempt counter from 2 back to
zero, refuting the claim that only the connected transition resets it. -/
theorem c4_cleanup_resets_counter :
    midRecoveryState.recoveryAttempts = 2 ∧
    (cleanupConnection midRecoveryState).recoveryAttempts = 0 := by
  decide

/-- C4 (amended): the recovery attempt counter is reset to zero by the
confirmed connected transition and also by `cleanupConnection` (explicit
stop, fatal initialization error, or retry exhaustion); the tentative
reconnect path below the cap never resets it — it increments it — and the
remaining transport transitions leave the state untouched. -/
theorem retry_reset_sources (s : GSState) (st : PCConnState)
    (h1 : st ≠ PCConnState.connected) (h2 : st ≠ PCConnState.failed) :
    (onConnectionStateChange PCConnState.connected s).1.recoveryAttempts = 0 ∧
    (cleanupConnection s).recoveryAttempts = 0 ∧
    (s.recoveryAttempts < maxRecoveryAttempts →
      (attemptConnectionRecovery s).1.recoveryAttempts = s.recoveryAttempts + 1) ∧
    (onConnectionStateChange st s).1 = s := by
  refine ⟨rfl, cleanup_recoveryAttempts s,
    fun h => (attemptRecovery_below_cap s h).1, ?_⟩
  cases st with
  | connected => exact absurd rfl h1
  | failed => exact absurd rfl h2
  | disconnected => rfl
  | other => rfl

/-- Witness for C4's amended theorem at the mid-recovery state and the
disconnected transition. -/
theorem retry_reset_sources_witness :
    (onConnectionStateChange PCConnState.connected midRecoveryState).1.recoveryAttempts = 0 ∧
    (cleanupConnection midRecoveryState).recoveryAttempts = 0 ∧
    (attemptConnectionRecovery midRecoveryState).1.recoveryAttempts =
      midRecoveryState.recoveryAttempts + 1 ∧
    (onConnectionStateChange PCConnState.disconnected midRecoveryState).1 =
      midRecoveryState :=
  have h := retry_reset_sources midRecoveryState PCConnState.disconnected
    (by decide) (by decide)
  ⟨h.1, h.2.1, h.2.2.1 (by decide), h.2.2.2⟩

/-- C9: when the candidate-provider fetch fails — a thrown error or a
non-success HTTP response — `getIceServers` returns the hardcoded public
STUN/TURN fallback list as an ordinary (non-error) value. -/
theorem ice_fallback_on_failure (fetchResult : Except String TurnResponse)
    (h : (∃ e, fetchResult = Except.error e) ∨
         (∃ r, fetchResult = Except.ok r ∧ r.ok = false)) :
    getIceServers fetchResult = fallbackIceServers := by
  rcases h with ⟨e, rfl⟩ | ⟨r, rfl, hr⟩
  · rfl
  · simp [getIceServers, hr]

/-- Witness for C9 at a failed fetch. -/
theorem ice_fallback_witness :
    getIceServers (Except.error "fetch failed") = fallbackIceServers :=
  ice_fallback_on_failure (Except.error "fetch failed")
    (Or.inl ⟨"fetch failed", rfl⟩)

end GuidedSession

namespace AudioCapture

lemma clamp_lower (x : ℚ) : -1 ≤ clampSample x := le_max_left _ _

lemma clamp_upper (x : ℚ) : clampSample x ≤ 1 :=
  max_le (by norm_num) (min_le_left _ _)

lemma jsTruncate_scale_bounds (x : ℚ) :
    -32768 ≤ jsTruncate (scaleSample x) ∧ jsTruncate (scaleSample x) ≤ 32767 := by
  have h1 : -1 ≤ clampSample x := clamp_lower x
  have h2 : clampSample x ≤ 1 := clamp_upper x
  rw [scaleSample]
  set s := clampSample x with hs
  by_cases hneg : s < 0
  · have hv1 : (-32768 : ℚ) ≤ s * 32768 := by nlinarith
    have hv2 : s * 32768 < 0 := by nlinarith
    have hnot : ¬ (0 : ℚ) ≤ s * 32768 := by linarith
    rw [if_pos hneg, jsTruncate, if_neg hnot]
    constructor
    · have hc := Int.ceil_le_ceil (α := ℚ) hv1
      have he : ⌈(-32768 : ℚ)⌉ = -32768 := by
        have hcast : ((-32768 : ℤ) : ℚ) = (-32768 : ℚ) := by norm_num
        rw [← hcast, Int.ceil_intCast]
      omega
    · have hc : ⌈s * 32768⌉ ≤ ⌈(0 : ℚ)⌉ := Int.ceil_le_ceil (le_of_lt hv2)
      simp at hc
      omega
  · push_neg at hneg
    have hv1 : (0 : ℚ) ≤ s * 32767 := by nlinarith
    have hv2 : s * 32767 ≤ 32767 := by nlinarith
    rw [if_neg (not_lt.mpr hneg), jsTruncate, if_pos hv1]
    constructor
    · have := Int.floor_nonneg.mpr hv1
      omega
    · have hf : ⌊s * 32767⌋ ≤ ⌊(32767 : ℚ)⌋ := Int.floor_le_floor hv2
      have he : ⌊(32767 : ℚ)⌋ = 32767 := by
        have hcast : ((32767 : ℤ) : ℚ) = (32767 : ℚ) := by norm_num
        rw [← hcast, Int.floor_intCast]
      omega

lemma toInt16_of_bounds (q : ℚ) (h1 : -32768 ≤ jsTruncate q)
    (h2 : jsTruncate q ≤ 32767) : toInt16 q = jsTruncate q := by
  simp only [toInt16]
  split <;> omega

lemma convertToPCM16_length (xs : List ℚ) :
    (convertToPCM16 xs).length = 2 * xs.length := by
  induction xs with
  | nil => rfl
  | cons x xs ih =>
      simp only [convertToPCM16, int16LEBytes, List.length_append,
        List.length_cons, ih]
      simp [List.length]
      omega

/-- C5: PCM conversion clamps each sample to [-1, 1], scales negative values
by 32768 and non-negative ones by 32767, and stores a little-endian signed
16-bit integer per sample: every stored value lies in [-32768, 32767] and
equals the truncated scaled sample (so the 16-bit wrap never fires — no
overflow, including at the boundary samples -1 and 1, which map exactly to
-32768 and 32767), and the output holds exactly 2 bytes per input sample. -/
theorem pcm16_conversion_sound :
    (∀ xs : List ℚ, (convertToPCM16 xs).length = 2 * xs.length) ∧
    (∀ x : ℚ, -32768 ≤ pcm16Value x ∧ pcm16Value x ≤ 32767 ∧
      pcm16Value x = jsTruncate (scaleSample x)) ∧
    pcm16Value (-1) = -32768 ∧ pcm16Value 1 = 32767 := by
  refine ⟨convertToPCM16_length, fun x => ?_, ?_, ?_⟩
  · have hb := jsTruncate_scale_bounds x
    have heq : pcm16Value x = jsTruncate (scaleSample x) :=
      toInt16_of_bounds (scaleSample x) hb.1 hb.2
    exact ⟨by omega, by omega, heq⟩
  · have h1 : scaleSample (-1) = -32768 := by
      norm_num [scaleSample, clampSample]
    have h2 : jsTruncate (-32768 : ℚ) = -32768 := by
      have hcast : ((-32768 : ℤ) : ℚ) = (-32768 : ℚ) := by norm_num
      rw [jsTruncate, if_neg (by norm_num), ← hcast, Int.ceil_intCast]
    rw [pcm16Value, h1, toInt16, h2]
    norm_num
  · have h1 : scaleSample 1 = 32767 := by
      norm_num [scaleSample, clampSample]
    have h2 : jsTruncate (32767 : ℚ) = 32767 := by
      have hcast : ((32767 : ℤ) : ℚ) = (32767 : ℚ) := by norm_num
      rw [jsTruncate, if_pos (by norm_num), ← hcast, Int.floor_intCast]
    rw [pcm16Value, h1, toInt16, h2]
    norm_num

end AudioCapture

namespace TranscriptionSvc

/-- C10: in `handleClose` the status is set to closed before the guard that
tests for active/connecting, so the guard is false on every incoming state:
a close emits exactly the closed status-change notification and never an
error callback through that branch. -/
theorem close_error_branch_unreachable (reason : Option String) (s : SvcState) :
    handleClose reason s =
      ({ s with status := Status.closed, ws := none },
        [Emit.statusChange Status.closed]) ∧
    (∀ m, Emit.errorCb m ∉ (handleClose reason s).2) := by
  constructor
  · simp [handleClose, setStatus]
  · intro m
    simp [handleClose, setStatus]

end TranscriptionSvc

namespace UseTranscription

/-- C8: a malformed (unparsable-as-JSON) payload delivered to the message
handler is caught, logged and dropped in both variants: the handler returns
normally (no exception), the status is unchanged, and the transcript
buffers are unchanged — the whole state is returned as it was, with no
notifications. -/
theorem malformed_payload_dropped (raw : String) (s : HookState)
    (t : TranscriptionSvc.SvcState) :
    dataChannelOnMessage (Except.error raw) s = Except.ok (s, []) ∧
    TranscriptionSvc.handleMessage (Except.error raw) t = (t, []) :=
  ⟨rfl, rfl⟩

/-- C6 counterexample: the hook variant has no reentrancy guard — invoking
`startTranscription` while status is transcribing starts a fresh
negotiation: the state changes, status drops to connecting, and a freshly
created peer connection replaces the held one. -/
theorem c6_start_not_noop :
    connectedHookState.status = HookStatus.transcribing ∧
    startTranscription allOkEnv connectedHookState ≠ connectedHookState ∧
    (startTranscription allOkEnv connectedHookState).status =
      HookStatus.connecting ∧
    (startTranscription allOkEnv connectedHookState).peerConnection ≠
      connectedHookState.peerConnection := by
  refine ⟨rfl, by decide, by decide, by decide⟩

/-- C6 (amended): only the WebSocket variant guards reentrancy: its
`start()` is a no-op — state unchanged, nothing emitted, no socket created —
when the status is already active or connecting.  The hook variant's
`startTranscription` performs no status check: whatever the outcome of the
setup attempts, its status afterwards is connecting or idle, never the
unchanged transcribing. -/
theorem start_reentrancy_guard (secret : Except String String)
    (env : Env) (s : TranscriptionSvc.SvcState) (hs : HookState)
    (h : s.status = TranscriptionSvc.Status.active ∨
         s.status = TranscriptionSvc.Status.connecting) :
    TranscriptionSvc.start secret s = (s, []) ∧
    (startTranscription env hs).status ≠ HookStatus.transcribing := by
  constructor
  · unfold TranscriptionSvc.start
    rw [if_pos h]
  · rcases env with ⟨k, m, a⟩
    cases k <;> cases m <;> cases a <;>
      simp [startTranscription, startLoop, setupTranscription, stopTranscription]

/-- Witness for C6's amended theorem: the guarded socket variant at an
active state, and the unguarded hook at a transcribing state. -/
theorem start_reentrancy_witness :
    TranscriptionSvc.start (Except.ok "secret") TranscriptionSvc.activeSvcState =
      (TranscriptionSvc.activeSvcState, []) ∧
    (startTranscription allOkEnv connectedHookState).status ≠
      HookStatus.transcribing :=
  have h := start_reentrancy_guard (Except.ok "secret") allOkEnv
    TranscriptionSvc.activeSvcState connectedHookState (Or.inl rfl)
  ⟨h.1, h.2⟩

/-- C7 counterexample: in the WebSocket variant, `stop()` from a state whose
socket ref is already null — reachable, e.g. after a remote close sets
status closed and drops the ref — is a complete no-op: the status stays
closed, not idle, refuting the claim that stop always leaves status idle. -/
theorem c7_stop_not_idle :
    TranscriptionSvc.stop ⟨none, TranscriptionSvc.Status.closed, 0⟩ =
      (⟨none, TranscriptionSvc.Status.closed, 0⟩, []) ∧
    (TranscriptionSvc.stop ⟨none, TranscriptionSvc.Status.closed, 0⟩).1.status ≠
      TranscriptionSvc.Status.idle := by
  refine ⟨rfl, by decide⟩

/-- C7 (amended): stop is idempotent and raises no error in both variants.
The hook's `stopTranscription` always lands in idle.  The socket variant's
`stop()` sets status idle exactly when a socket ref still exists; when the
ref is already null it leaves the state — possibly a non-idle status —
unchanged, and it never emits an error callback. -/
theorem stop_idempotent (s : HookState) (t : TranscriptionSvc.SvcState)
    (h : t.ws ≠ none) :
    (stopTranscription s).status = HookStatus.idle ∧
    stopTranscription (stopTranscription s) = stopTranscription s ∧
    (TranscriptionSvc.stop t).1.status = TranscriptionSvc.Status.idle ∧
    (∀ u : TranscriptionSvc.SvcState,
      (TranscriptionSvc.stop (TranscriptionSvc.stop u).1).1 =
        (TranscriptionSvc.stop u).1) ∧
    (∀ u : TranscriptionSvc.SvcState, ∀ m,
      TranscriptionSvc.Emit.errorCb m ∉ (TranscriptionSvc.stop u).2) := by
  refine ⟨rfl, rfl, ?_, ?_, ?_⟩
  · cases hw : t.ws with
    | none => exact absurd hw h
    | some n => simp [TranscriptionSvc.stop, TranscriptionSvc.setStatus, hw]
  · intro u
    cases hw : u.ws with
    | none => simp [TranscriptionSvc.stop, hw]
    | some n => simp [TranscriptionSvc.stop, TranscriptionSvc.setStatus, hw]
  · intro u m
    cases hw : u.ws with
    | none => simp [TranscriptionSvc.stop, hw]
    | some n => simp [TranscriptionSvc.stop, TranscriptionSvc.setStatus, hw]

/-- Witness for C7's amended theorem at concrete states with live refs. -/
theorem stop_idempotent_witness :
    (stopTranscription connectedHookState).status = HookStatus.idle ∧
    (TranscriptionSvc.stop TranscriptionSvc.activeSvcState).1.status =
      TranscriptionSvc.Status.idle :=
  have h := stop_idempotent connectedHookState TranscriptionSvc.activeSvcState
    (by decide)
  ⟨h.1, h.2.2.1⟩

end UseTranscription

namespace TranscriptionSvc

/-- Witness for C10 at a concrete close of an active session. -/
theorem close_unreachable_witness :
    handleClose none activeSvcState =
      ({ activeSvcState with status := Status.closed, ws := none },
        [Emit.statusChange Status.closed]) ∧
    Emit.errorCb "Connection closed: Unknown reason" ∉
      (handleClose none activeSvcState).2 :=
  have h := close_error_branch_unreachable none activeSvcState
  ⟨h.1, h.2 "Connection closed: Unknown reason"⟩

end TranscriptionSvc
